import Mathlib

/-!
Shallow embedding of the core logic of src/src/App.jsx (a padel-club layout
and reservation planner) and proofs about it.

Conventions of the embedding:
* Times are integers (milliseconds since the epoch, as produced by
  Date.getTime in the source); durations are in minutes and converted with
  the factor 60000 exactly as the source does.
* Screen and scene coordinates are rationals; the source uses JS floats, and
  the geometric claims are about the exact algebra of the formulas.
* The cosine and sine of an element rotation are passed as parameters
  (rotC, rotS); the source computes them with Math.cos and Math.sin of the
  angle in radians, and the editor only ever uses the angles 0 and 90
  degrees, whose cosine and sine pairs are (1, 0) and (0, 1).
* Date.now() is passed as an explicit parameter `now`; Math.random() values
  are passed as explicit parameters.
* The date and time text inputs of the reservation form are modelled by the
  flags dateGiven and timeGiven (the strings being non-empty) together with
  parsedStart, the epoch value of new Date parsing them (none when that
  parse is NaN).
* The deposit field of the form, a string in the source where the empty
  string is the only falsy numeric input and Number is applied for display,
  is modelled as Option of a rational: none is the blank field, and the
  JS expression (deposit or the string zero) becomes Option.getD with 0.
-/

namespace ClubPadel

/-- SCALE constant of the source: pixels per meter. -/
def SCALE : ℚ := 15

/-- COURT_WIDTH_M constant of the source. -/
def COURT_WIDTH_M : ℚ := 10

/-- COURT_HEIGHT_M constant of the source. -/
def COURT_HEIGHT_M : ℚ := 20

/-- COURT_WIDTH_PX constant of the source. -/
def COURT_WIDTH_PX : ℚ := COURT_WIDTH_M * SCALE

/-- COURT_HEIGHT_PX constant of the source. -/
def COURT_HEIGHT_PX : ℚ := COURT_HEIGHT_M * SCALE

/-- MIN_SIZE_PX constant of the source: minimum size for zones. -/
def MIN_SIZE_PX : ℚ := 30

/-- The two element variants of the layout (the type field of the JS
element objects, the strings court and zone). -/
inductive ElemType where
  | court : ElemType
  | zone : ElemType
deriving DecidableEq

/-- A placed layout element, as built by addCourt and addZone in the source.
Courts carry a color and a label and no width or height fields (their size
is the fixed COURT_WIDTH_PX by COURT_HEIGHT_PX); zones carry width and
height and no color or label. The absent fields are Option none. -/
structure Element where
  id : ℕ
  type : ElemType
  x : ℚ
  y : ℚ
  rotation : ℚ
  color : Option String
  label : Option ℕ
  width : Option ℚ
  height : Option ℚ
deriving DecidableEq

/-- A reservation as committed by handleSubmit in the source. The source
field named end is called endTime here (end is a reserved word). -/
structure Reservation where
  id : ℕ
  courtId : ℕ
  clientName : String
  start : ℤ
  endTime : ℤ
  deposit : ℚ
deriving DecidableEq

/-- The interval-overlap predicate of the source, written twice there with
the same shape: in handleSubmit as (nStart < rEnd and nEnd > rStart) and in
getAvailableCourts as (searchStart < resEnd and searchEnd > resStart). -/
def overlapB (s1 e1 s2 e2 : ℤ) : Bool :=
  decide (s1 < e2) && decide (e1 > s2)

/-- Outcome of the reservation form submit handler. missingFields is the
toast asking for date and time, invalidDate the toast for a NaN parse,
conflict the toast saying the court is already reserved, and ok carries the
reservation handed to onSave. -/
inductive SubmitResult where
  | missingFields : SubmitResult
  | invalidDate : SubmitResult
  | conflict : SubmitResult
  | ok : Reservation → SubmitResult
deriving DecidableEq

/-- Embedding of handleSubmit of ReservationModal (source lines 403 to 444).
It checks the date and time fields are given, that the composed date parses,
scans `existing` (the reservations of the modal, filtered by the caller to
the court being managed) for an overlap with the candidate interval, and on
success builds the reservation object passed to onSave, with id Date.now(),
the interval from the parsed start and the duration in minutes, and deposit
defaulting to zero when the field is blank. -/
def handleSubmit (dateGiven timeGiven : Bool) (parsedStart : Option ℤ) (duration : ℤ)
    (name : String) (deposit : Option ℚ) (courtId : ℕ) (existing : List Reservation)
    (now : ℕ) : SubmitResult :=
  if !dateGiven || !timeGiven then SubmitResult.missingFields
  else
    match parsedStart with
    | none => SubmitResult.invalidDate
    | some nStart =>
      let nEnd := nStart + duration * 60000
      let hasOverlap := existing.any fun r => overlapB nStart nEnd r.start r.endTime
      if hasOverlap then SubmitResult.conflict
      else SubmitResult.ok ⟨now, courtId, name, nStart, nEnd, deposit.getD 0⟩

/-- Embedding of handleSaveReservation of the main component: appends the new
reservation to the store. -/
def handleSaveReservation (store : List Reservation) (newRes : Reservation) :
    List Reservation :=
  store ++ [newRes]

/-- The whole creation pipeline as wired in the main component: the modal
receives existingReservations filtered to the managed court, handleSubmit
decides, and on success handleSaveReservation commits; on any failure the
store is left as it was. Returns the outcome and the resulting store. -/
def createReservation (store : List Reservation) (courtId : ℕ) (dateGiven timeGiven : Bool)
    (parsedStart : Option ℤ) (duration : ℤ) (name : String) (deposit : Option ℚ)
    (now : ℕ) : SubmitResult × List Reservation :=
  let existing := store.filter fun r => decide (r.courtId = courtId)
  match handleSubmit dateGiven timeGiven parsedStart duration name deposit courtId existing now with
  | SubmitResult.ok r => (SubmitResult.ok r, handleSaveReservation store r)
  | res => (res, store)

/-- Embedding of getAvailableCourts of AvailabilityView (source lines 615 to
634): keep the court elements, and of those keep the ones with no
reservation of theirs overlapping the candidate interval from searchStart
with the given duration in minutes. -/
def getAvailableCourts (elements : List Element) (reservations : List Reservation)
    (searchStart duration : ℤ) : List Element :=
  let courts := elements.filter fun el => decide (el.type = ElemType.court)
  let searchEnd := searchStart + duration * 60000
  courts.filter fun court =>
    ! reservations.any fun r =>
        decide (r.courtId = court.id) && overlapB searchStart searchEnd r.start r.endTime

/-- Embedding of addCourt of the main component (source lines 786 to 797):
appends a court whose id is Date.now(), whose position is the container
center jittered by Math.random() values rand1 and rand2 in the unit
interval, and whose label is the count of existing court elements plus one. -/
def addCourt (now : ℕ) (color : String) (containerW containerH rand1 rand2 : ℚ)
    (elements : List Element) : List Element :=
  elements ++ [{
    id := now
    type := ElemType.court
    x := containerW / 2 - COURT_WIDTH_PX / 2 + (rand1 * 40 - 20)
    y := containerH / 2 - COURT_HEIGHT_PX / 2 + (rand2 * 40 - 20)
    rotation := 0
    color := some color
    label := some ((elements.filter fun e => decide (e.type = ElemType.court)).length + 1)
    width := none
    height := none }]

/-- Embedding of addZone of the main component (source lines 799 to 810). -/
def addZone (now : ℕ) (containerW containerH : ℚ) (elements : List Element) :
    List Element :=
  elements ++ [{
    id := now
    type := ElemType.zone
    x := containerW / 2 - 50
    y := containerH / 2 - 25
    rotation := 0
    color := none
    label := none
    width := some (10 * SCALE)
    height := some (5 * SCALE) }]

/-- Embedding of deleteElement of the main component (source lines 816 to
819): removes the element with the given id, touching nothing else. -/
def deleteElement (i : ℕ) (elements : List Element) : List Element :=
  elements.filter fun el => decide (el.id ≠ i)

/-- Embedding of rotateElement of the main component: toggles the rotation
of the element with the given id between 0 and 90 degrees. -/
def rotateElement (i : ℕ) (elements : List Element) : List Element :=
  elements.map fun el =>
    if el.id = i then { el with rotation := if el.rotation = 0 then 90 else 0 } else el

/-- A layout mutation as the design toolbar issues them, carrying the
Date.now() value of the call and the Math.random() values where the source
consumes them. -/
inductive LayoutOp where
  | addCourtOp : ℕ → String → ℚ → ℚ → LayoutOp
  | addZoneOp : ℕ → LayoutOp
  | deleteOp : ℕ → LayoutOp

/-- Run one layout operation against the element list. -/
def applyOp (containerW containerH : ℚ) (st : List Element) : LayoutOp → List Element
  | LayoutOp.addCourtOp now color r1 r2 => addCourt now color containerW containerH r1 r2 st
  | LayoutOp.addZoneOp now => addZone now containerW containerH st
  | LayoutOp.deleteOp i => deleteElement i st

/-- Run a sequence of layout operations left to right. -/
def applyOps (containerW containerH : ℚ) : List LayoutOp → List Element → List Element
  | [], st => st
  | op :: rest, st => applyOps containerW containerH rest (applyOp containerW containerH st op)

/-- The Date.now() value a layout operation consumes, none for deletion. -/
def opTimestamp : LayoutOp → Option ℕ
  | LayoutOp.addCourtOp now _ _ _ => some now
  | LayoutOp.addZoneOp now => some now
  | LayoutOp.deleteOp _ => none

/-- The ids of the elements of the layout, in insertion order. -/
def elementIds (st : List Element) : List ℕ := st.map Element.id

/-- The labels of the court elements of the layout, in insertion order. -/
def courtLabels (st : List Element) : List ℕ :=
  (st.filter fun e => decide (e.type = ElemType.court)).filterMap Element.label

/-- Embedding of the pointer-move handler of handleDragStart, identical in
PadelCourt (source lines 149 to 171) and GenericZone (lines 255 to 277): the
new center is the drag-start center plus the screen displacement divided by
the zoom factor. The element rotation is not consulted. -/
def dragNewPosition (el : Element) (zoom startX startY clientX clientY : ℚ) : ℚ × ℚ :=
  (el.x + (clientX - startX) / zoom, el.y + (clientY - startY) / zoom)

/-- The eight resize handles of a zone, as the direction strings of the
source: the direction string of a corner contains the letters of both its
edges, so the string membership tests of the source are the Boolean field
tests below. -/
inductive Dir where
  | n : Dir
  | s : Dir
  | e : Dir
  | w : Dir
  | ne : Dir
  | nw : Dir
  | se : Dir
  | sw : Dir
deriving DecidableEq

/-- Whether the direction string contains the letter e. -/
def Dir.hasE : Dir → Bool
  | Dir.e => true
  | Dir.ne => true
  | Dir.se => true
  | _ => false

/-- Whether the direction string contains the letter w. -/
def Dir.hasW : Dir → Bool
  | Dir.w => true
  | Dir.nw => true
  | Dir.sw => true
  | _ => false

/-- Whether the direction string contains the letter s (the corner strings
are ne, nw, se, sw, so this is exactly the s, se, sw handles). -/
def Dir.hasS : Dir → Bool
  | Dir.s => true
  | Dir.se => true
  | Dir.sw => true
  | _ => false

/-- Whether the direction string contains the letter n. -/
def Dir.hasN : Dir → Bool
  | Dir.n => true
  | Dir.ne => true
  | Dir.nw => true
  | _ => false

/-- The update object a resize pointer-move hands to onUpdate: the new
width, height and center of the zone. -/
structure ResizeResult where
  width : ℚ
  height : ℚ
  x : ℚ
  y : ℚ
deriving DecidableEq

/-- Embedding of the pointer-move handler of handleResizeStart of
GenericZone (source lines 279 to 340). The drag-start snapshot is the zone
width, height and center (startW, startH, startXPos, startYPos) and the
body-frame basis u = (rotC, rotS), v = (-rotS, rotC) from the zone rotation;
each move recomputes from that snapshot: the zoomed screen delta is
projected on u and v, each active edge sets its dimension clamped at
MIN_SIZE_PX and a signed half-delta center shift, and the accumulated local
shift is rotated back to world space and added to the snapshot center. -/
def handleResizeMove (direction : Dir) (startW startH startXPos startYPos rotC rotS
    zoom startX startY clientX clientY : ℚ) : ResizeResult :=
  let dx := (clientX - startX) / zoom
  let dy := (clientY - startY) / zoom
  let ux := rotC
  let uy := rotS
  let vx := -rotS
  let vy := rotC
  let localDx := dx * ux + dy * uy
  let localDy := dx * vx + dy * vy
  let newW := if direction.hasE then max MIN_SIZE_PX (startW + localDx)
    else if direction.hasW then max MIN_SIZE_PX (startW - localDx)
    else startW
  let changeX := if direction.hasE then (newW - startW) / 2
    else if direction.hasW then -((newW - startW) / 2)
    else 0
  let newH := if direction.hasS then max MIN_SIZE_PX (startH + localDy)
    else if direction.hasN then max MIN_SIZE_PX (startH - localDy)
    else startH
  let changeY := if direction.hasS then (newH - startH) / 2
    else if direction.hasN then -((newH - startH) / 2)
    else 0
  let worldShiftX := changeX * ux + changeY * vx
  let worldShiftY := changeX * uy + changeY * vy
  ⟨newW, newH, startXPos + worldShiftX, startYPos + worldShiftY⟩

end ClubPadel

namespace ClubPadel

/-- Helper: with valid date and time fields and a same-court overlap in the
store, createReservation fails with conflict and returns the store as it
was. -/
lemma createReservation_conflict_of_overlap (store : List Reservation) (courtId : ℕ)
    (s duration : ℤ) (name : String) (deposit : Option ℚ) (now : ℕ)
    (h : ∃ r ∈ store, r.courtId = courtId ∧
      overlapB s (s + duration * 60000) r.start r.endTime = true) :
    createReservation store courtId true true (some s) duration name deposit now
      = (SubmitResult.conflict, store) := by
  obtain ⟨r, hr, hcid, hov⟩ := h
  have hany : ((store.filter fun r => decide (r.courtId = courtId)).any
      fun r => overlapB s (s + duration * 60000) r.start r.endTime) = true := by
    rw [List.any_eq_true]
    exact ⟨r, by simp [List.mem_filter, hr, hcid], hov⟩
  simp [createReservation, handleSubmit, hany]

/-- Helper: with valid date and time fields and no same-court overlap in the
store, createReservation succeeds and appends exactly the submitted
reservation. -/
lemma createReservation_ok_of_no_overlap (store : List Reservation) (courtId : ℕ)
    (s duration : ℤ) (name : String) (deposit : Option ℚ) (now : ℕ)
    (h : ∀ r ∈ store, r.courtId = courtId →
      overlapB s (s + duration * 60000) r.start r.endTime = false) :
    createReservation store courtId true true (some s) duration name deposit now
      = (SubmitResult.ok ⟨now, courtId, name, s, s + duration * 60000, deposit.getD 0⟩,
         store ++ [⟨now, courtId, name, s, s + duration * 60000, deposit.getD 0⟩]) := by
  have hany : ((store.filter fun r => decide (r.courtId = courtId)).any
      fun r => overlapB s (s + duration * 60000) r.start r.endTime) = false := by
    rw [List.any_eq_false]
    intro r hr
    rw [List.mem_filter] at hr
    simp only [decide_eq_true_eq] at hr
    simp [h r hr.1 hr.2]
  simp [createReservation, handleSubmit, hany, handleSaveReservation]

/-- C2: with the date and time fields valid, an overlapping reservation on
the same court makes createReservation fail with conflict and leave the
store unchanged; with no same-court overlap (adjacent intervals included,
since touching intervals do not satisfy the overlap predicate) it succeeds
and commits exactly the submitted reservation. -/
theorem create_conflict_or_commit (store : List Reservation) (courtId : ℕ)
    (s duration : ℤ) (name : String) (deposit : Option ℚ) (now : ℕ) :
    ((∃ r ∈ store, r.courtId = courtId ∧
        overlapB s (s + duration * 60000) r.start r.endTime = true) →
      createReservation store courtId true true (some s) duration name deposit now
        = (SubmitResult.conflict, store))
    ∧ ((∀ r ∈ store, r.courtId = courtId →
        overlapB s (s + duration * 60000) r.start r.endTime = false) →
      createReservation store courtId true true (some s) duration name deposit now
        = (SubmitResult.ok ⟨now, courtId, name, s, s + duration * 60000, deposit.getD 0⟩,
           store ++ [⟨now, courtId, name, s, s + duration * 60000, deposit.getD 0⟩])) :=
  ⟨createReservation_conflict_of_overlap store courtId s duration name deposit now,
   createReservation_ok_of_no_overlap store courtId s duration name deposit now⟩

/-- C1: the overlap predicate holds iff s1 < e2 and e1 > s2; touching
intervals (e1 equal to s2) never overlap; on the concrete intervals of the
spec, in minutes since midnight, A from 10:00 to 11:00 does not overlap B
from 11:00 to 12:00, and does overlap the interval from 10:59 to 11:30. -/
theorem overlap_half_open_spec :
    (∀ s1 e1 s2 e2 : ℤ, overlapB s1 e1 s2 e2 = true ↔ (s1 < e2 ∧ e1 > s2))
    ∧ (∀ s1 e1 e2 : ℤ, overlapB s1 e1 e1 e2 = false)
    ∧ overlapB 600 660 660 720 = false
    ∧ overlapB 600 660 659 690 = true := by
  refine ⟨fun s1 e1 s2 e2 => ?_, fun s1 e1 e2 => ?_, by decide, by decide⟩
  · simp [overlapB]
  · simp [overlapB]

/-- C6: getAvailableCourts returns exactly the court elements none of whose
reservations overlap the candidate interval, as a sublist of the input list
(insertion order preserved, no sorting); on the concrete example of the
spec, in minutes since midnight, a court with a reservation from 14:00 to
15:30 is excluded for the candidate starting 14:30 with duration 30 and
included for the candidate starting 15:30 with duration 30. -/
theorem availability_exact_and_ordered :
    (∀ (elements : List Element) (reservations : List Reservation)
        (searchStart duration : ℤ) (c : Element),
      c ∈ getAvailableCourts elements reservations searchStart duration ↔
        (c ∈ elements ∧ c.type = ElemType.court ∧ ∀ r ∈ reservations, r.courtId = c.id →
          overlapB searchStart (searchStart + duration * 60000) r.start r.endTime = false))
    ∧ (∀ (elements : List Element) (reservations : List Reservation)
        (searchStart duration : ℤ),
      (getAvailableCourts elements reservations searchStart duration).Sublist elements)
    ∧ getAvailableCourts
        [⟨1, ElemType.court, 0, 0, 0, some "blue", some 1, none, none⟩]
        [⟨2, 1, "Ana", 840 * 60000, 930 * 60000, 0⟩] (870 * 60000) 30 = []
    ∧ getAvailableCourts
        [⟨1, ElemType.court, 0, 0, 0, some "blue", some 1, none, none⟩]
        [⟨2, 1, "Ana", 840 * 60000, 930 * 60000, 0⟩] (930 * 60000) 30
      = [⟨1, ElemType.court, 0, 0, 0, some "blue", some 1, none, none⟩] := by
  refine ⟨fun elements reservations searchStart duration c => ?_,
    fun elements reservations searchStart duration => ?_, by decide, by decide⟩
  · simp only [getAvailableCourts, List.mem_filter, decide_eq_true_eq,
      Bool.not_eq_true', List.any_eq_false, Bool.and_eq_true, not_and,
      Bool.not_eq_true, and_assoc]
  · exact (List.filter_sublist _).trans (List.filter_sublist _)

/-- C7 counterexample: with a valid date and time and an empty client name,
createReservation succeeds and commits a reservation whose clientName is the
empty string; no InvalidInput failure occurs and the store grows. -/
theorem clientName_blank_committed_cex :
    createReservation [] 1 true true (some 0) 60 "" none 100
      = (SubmitResult.ok ⟨100, 1, "", 0, 3600000, 0⟩,
         [⟨100, 1, "", 0, 3600000, 0⟩]) := by
  decide

/-- C7 amended: handleSubmit performs no clientName validation; with valid
date and time fields and no same-court overlap, the submission succeeds for
every client name, the empty string included, and the committed reservation
carries exactly the submitted name. -/
theorem clientName_passthrough (store : List Reservation) (courtId : ℕ)
    (s duration : ℤ) (name : String) (deposit : Option ℚ) (now : ℕ)
    (h : ∀ r ∈ store, r.courtId = courtId →
      overlapB s (s + duration * 60000) r.start r.endTime = false) :
    (createReservation store courtId true true (some s) duration name deposit now).1
      = SubmitResult.ok ⟨now, courtId, name, s, s + duration * 60000, deposit.getD 0⟩
    ∧ (createReservation store courtId true true (some s) duration name deposit now).2
      = store ++ [⟨now, courtId, name, s, s + duration * 60000, deposit.getD 0⟩] := by
  rw [createReservation_ok_of_no_overlap store courtId s duration name deposit now h]
  exact ⟨rfl, rfl⟩

/-- C7 witness: the amended theorem at the empty store, the empty client
name and a concrete interval. -/
theorem clientName_passthrough_witness :
    (∀ r ∈ ([] : List Reservation), r.courtId = 1 →
      overlapB 0 (0 + 60 * 60000) r.start r.endTime = false)
    ∧ ((createReservation [] 1 true true (some 0) 60 "" none 100).1
        = SubmitResult.ok ⟨100, 1, "", 0, 0 + 60 * 60000, Option.getD none 0⟩
      ∧ (createReservation [] 1 true true (some 0) 60 "" none 100).2
        = [] ++ [⟨100, 1, "", 0, 0 + 60 * 60000, Option.getD none 0⟩]) :=
  ⟨by simp, clientName_passthrough [] 1 0 60 "" none 100 (by simp)⟩

/-- C10 counterexample: a reservation submitted with deposit -5 is committed
with deposit -5, a negative amount; no non-negativity validation occurs. -/
theorem deposit_negative_committed_cex :
    (createReservation [] 1 true true (some 0) 60 "Ana" (some (-5)) 100).2
      = [⟨100, 1, "Ana", 0, 3600000, -5⟩] ∧ (-5 : ℚ) < 0 := by
  exact ⟨by decide, by decide⟩

/-- C10 amended: the committed deposit is the submitted one unchanged, with
the blank field defaulting to zero; no non-negativity check is made, so any
rational deposit, negative ones included, is committed as given. -/
theorem deposit_default_and_passthrough (store : List Reservation) (courtId : ℕ)
    (s duration : ℤ) (name : String) (now : ℕ)
    (h : ∀ r ∈ store, r.courtId = courtId →
      overlapB s (s + duration * 60000) r.start r.endTime = false) :
    (createReservation store courtId true true (some s) duration name none now).2
      = store ++ [⟨now, courtId, name, s, s + duration * 60000, 0⟩]
    ∧ ∀ d : ℚ, (createReservation store courtId true true (some s) duration name (some d) now).2
      = store ++ [⟨now, courtId, name, s, s + duration * 60000, d⟩] := by
  constructor
  · rw [createReservation_ok_of_no_overlap store courtId s duration name none now h]
    exact rfl
  · intro d
    rw [createReservation_ok_of_no_overlap store courtId s duration name (some d) now h]
    exact rfl

/-- C8 counterexample: creating courts at times 1, 2, 3 yields labels 1, 2,
3; deleting the court with id 2 (the one labeled 2) and creating a fourth
court yields the label list 1, 3, 3 and not 1, 3, 4: the new court is
labeled 3, since addCourt labels it with the count of surviving courts plus
one, so the label 3 is reused, not 4 assigned. -/
theorem label_after_delete_cex :
    courtLabels (applyOps 0 0
      [LayoutOp.addCourtOp 1 "blue" 0 0, LayoutOp.addCourtOp 2 "blue" 0 0,
       LayoutOp.addCourtOp 3 "blue" 0 0, LayoutOp.deleteOp 2,
       LayoutOp.addCourtOp 4 "blue" 0 0] []) = [1, 3, 3]
    ∧ courtLabels (applyOps 0 0
      [LayoutOp.addCourtOp 1 "blue" 0 0, LayoutOp.addCourtOp 2 "blue" 0 0,
       LayoutOp.addCourtOp 3 "blue" 0 0, LayoutOp.deleteOp 2,
       LayoutOp.addCourtOp 4 "blue" 0 0] []) ≠ [1, 3, 4] := by
  exact ⟨by decide, by decide⟩

/-- C8 amended: addCourt labels a new court with the count of present courts
plus one, deletion leaves the surviving elements (their labels included)
unchanged, and on the concrete scenario three creations yield labels 1, 2, 3
while deleting court 2 and creating again yields 1, 3, 3: the new label is 3
(count plus one), duplicating a surviving label, not the never-used 4. -/
theorem label_assignment_count_plus_one :
    (∀ (st : List Element) (now : ℕ) (color : String) (cw ch r1 r2 : ℚ),
      courtLabels (addCourt now color cw ch r1 r2 st)
        = courtLabels st ++ [(st.filter fun e => decide (e.type = ElemType.court)).length + 1])
    ∧ (∀ (st : List Element) (i : ℕ), ∀ e ∈ deleteElement i st, e ∈ st)
    ∧ courtLabels (applyOps 0 0
        [LayoutOp.addCourtOp 1 "blue" 0 0, LayoutOp.addCourtOp 2 "blue" 0 0,
         LayoutOp.addCourtOp 3 "blue" 0 0] []) = [1, 2, 3]
    ∧ courtLabels (applyOps 0 0
        [LayoutOp.addCourtOp 1 "blue" 0 0, LayoutOp.addCourtOp 2 "blue" 0 0,
         LayoutOp.addCourtOp 3 "blue" 0 0, LayoutOp.deleteOp 2,
         LayoutOp.addCourtOp 4 "blue" 0 0] []) = [1, 3, 3] := by
  refine ⟨fun st now color cw ch r1 r2 => ?_, fun st i e he => ?_, by decide, by decide⟩
  · simp [courtLabels, addCourt, List.filter_append, List.filterMap_append]
  · exact List.mem_of_mem_filter he

/-- Helper for C9: running layout operations whose creation timestamps are
pairwise distinct and disjoint from the ids already present keeps the
element ids without duplicates. -/
lemma applyOps_ids_nodup (cw ch : ℚ) (ops : List LayoutOp) (st : List Element)
    (h1 : (elementIds st).Nodup)
    (h2 : ∀ i ∈ elementIds st, i ∉ ops.filterMap opTimestamp)
    (h3 : (ops.filterMap opTimestamp).Nodup) :
    (elementIds (applyOps cw ch ops st)).Nodup := by
  induction ops generalizing st with
  | nil => exact h1
  | cons op rest ih =>
    cases op with
    | addCourtOp now color r1 r2 =>
      simp only [List.filterMap_cons, opTimestamp] at h2 h3
      rw [List.nodup_cons] at h3
      rw [show applyOps cw ch (LayoutOp.addCourtOp now color r1 r2 :: rest) st
        = applyOps cw ch rest (addCourt now color cw ch r1 r2 st) from rfl]
      refine ih _ ?_ ?_ h3.2
      · have hnotin : now ∉ elementIds st := fun hmem => (h2 now hmem) (List.mem_cons_self _ _)
        have hids : ∀ x ∈ st, ¬ x.id = now := fun x hx hxid =>
          hnotin (by simpa [elementIds, hxid] using List.mem_map_of_mem Element.id hx)
        simp only [elementIds, addCourt, List.map_append, List.nodup_append]
        exact ⟨h1, by simp, by simpa using hids⟩
      · intro i hi
        have hi' : i ∈ elementIds st ∨ i = now := by
          simpa [elementIds, addCourt] using hi
        rcases hi' with hmem | rfl
        · exact fun hr => (h2 i hmem) (List.mem_cons_of_mem _ hr)
        · exact h3.1
    | addZoneOp now =>
      simp only [List.filterMap_cons, opTimestamp] at h2 h3
      rw [List.nodup_cons] at h3
      rw [show applyOps cw ch (LayoutOp.addZoneOp now :: rest) st
        = applyOps cw ch rest (addZone now cw ch st) from rfl]
      refine ih _ ?_ ?_ h3.2
      · have hnotin : now ∉ elementIds st := fun hmem => (h2 now hmem) (List.mem_cons_self _ _)
        have hids : ∀ x ∈ st, ¬ x.id = now := fun x hx hxid =>
          hnotin (by simpa [elementIds, hxid] using List.mem_map_of_mem Element.id hx)
        simp only [elementIds, addZone, List.map_append, List.nodup_append]
        exact ⟨h1, by simp, by simpa using hids⟩
      · intro i hi
        have hi' : i ∈ elementIds st ∨ i = now := by
          simpa [elementIds, addZone] using hi
        rcases hi' with hmem | rfl
        · exact fun hr => (h2 i hmem) (List.mem_cons_of_mem _ hr)
        · exact h3.1
    | deleteOp j =>
      simp only [List.filterMap_cons, opTimestamp] at h2 h3
      rw [show applyOps cw ch (LayoutOp.deleteOp j :: rest) st
        = applyOps cw ch rest (deleteElement j st) from rfl]
      have hsub : (elementIds (deleteElement j st)).Sublist (elementIds st) :=
        (List.filter_sublist st).map Element.id
      exact ih _ (hsub.nodup h1) (fun i hi => h2 i (hsub.subset hi)) h3

/-- C9 counterexample: two addCourt calls at the same Date.now() timestamp
produce two elements with the same id 100, so the id list has a duplicate;
likewise two reservation submissions at the same timestamp 777 both commit a
reservation with id 777, on different courts. -/
theorem ids_collide_same_timestamp_cex :
    elementIds (applyOps 0 0 [LayoutOp.addCourtOp 100 "blue" 0 0,
      LayoutOp.addCourtOp 100 "green" 0 0] []) = [100, 100]
    ∧ ¬ (elementIds (applyOps 0 0 [LayoutOp.addCourtOp 100 "blue" 0 0,
      LayoutOp.addCourtOp 100 "green" 0 0] [])).Nodup
    ∧ (createReservation [] 1 true true (some 0) 60 "Ana" none 777).1
        = SubmitResult.ok ⟨777, 1, "Ana", 0, 3600000, 0⟩
    ∧ (createReservation [] 2 true true (some 0) 60 "Bea" none 777).1
        = SubmitResult.ok ⟨777, 2, "Bea", 0, 3600000, 0⟩ := by
  exact ⟨by decide, by decide, by decide, by decide⟩

/-- C9 amended: ids are the Date.now() values of the creation calls, so they
are unique across the lifetime of the layout provided the creation calls
carry pairwise distinct timestamps; two creations at one timestamp collide. -/
theorem element_ids_unique_of_distinct_timestamps (cw ch : ℚ) (ops : List LayoutOp)
    (h : (ops.filterMap opTimestamp).Nodup) :
    (elementIds (applyOps cw ch ops [])).Nodup :=
  applyOps_ids_nodup cw ch ops []
    (by simp [elementIds]) (by simp [elementIds]) h

/-- C9 witness: the amended theorem on a concrete operation sequence with
distinct timestamps, a deletion included. -/
theorem element_ids_unique_witness :
    (([LayoutOp.addCourtOp 1 "blue" 0 0, LayoutOp.addZoneOp 2, LayoutOp.deleteOp 1,
      LayoutOp.addCourtOp 3 "green" 0 0]).filterMap opTimestamp).Nodup
    ∧ (elementIds (applyOps 0 0
        [LayoutOp.addCourtOp 1 "blue" 0 0, LayoutOp.addZoneOp 2, LayoutOp.deleteOp 1,
         LayoutOp.addCourtOp 3 "green" 0 0] [])).Nodup :=
  ⟨by decide, element_ids_unique_of_distinct_timestamps 0 0
    [LayoutOp.addCourtOp 1 "blue" 0 0, LayoutOp.addZoneOp 2, LayoutOp.deleteOp 1,
     LayoutOp.addCourtOp 3 "green" 0 0] (by decide)⟩

/-- Helper: the dot product with the basis vector u of a world shift built
from local components CX along u = (c, s) and CY along v = (-s, c) is CX
when the basis is unit length; stated in the shape the unfolded resize
handler produces, with the east-edge shape (center u-coordinate plus half
the new width) pinned at half the start width when CX is minus half the
width delta. -/
lemma pinned_east_edge (c s x0 y0 CX CY NW sW : ℚ) (h : c * c + s * s = 1)
    (hCX : CX = -((NW - sW) / 2)) :
    (x0 + (CX * c + CY * -s) - x0) * c + (y0 + (CX * s + CY * c) - y0) * s + NW / 2
      = sW / 2 := by
  subst hCX
  linear_combination (-((NW - sW) / 2)) * h

/-- Helper: west-edge shape (center u-coordinate minus half the new width)
pinned at minus half the start width when CX is plus half the width delta. -/
lemma pinned_west_edge (c s x0 y0 CX CY NW sW : ℚ) (h : c * c + s * s = 1)
    (hCX : CX = (NW - sW) / 2) :
    (x0 + (CX * c + CY * -s) - x0) * c + (y0 + (CX * s + CY * c) - y0) * s - NW / 2
      = -(sW / 2) := by
  subst hCX
  linear_combination ((NW - sW) / 2) * h

/-- Helper: south-edge shape (center v-coordinate plus half the new height)
pinned at half the start height when CY is minus half the height delta. -/
lemma pinned_south_edge (c s x0 y0 CX CY NH sH : ℚ) (h : c * c + s * s = 1)
    (hCY : CY = -((NH - sH) / 2)) :
    (x0 + (CX * c + CY * -s) - x0) * -s + (y0 + (CX * s + CY * c) - y0) * c + NH / 2
      = sH / 2 := by
  subst hCY
  linear_combination (-((NH - sH) / 2)) * h

/-- Helper: north-edge shape (center v-coordinate minus half the new height)
pinned at minus half the start height when CY is plus half the height
delta. -/
lemma pinned_north_edge (c s x0 y0 CX CY NH sH : ℚ) (h : c * c + s * s = 1)
    (hCY : CY = (NH - sH) / 2) :
    (x0 + (CX * c + CY * -s) - x0) * -s + (y0 + (CX * s + CY * c) - y0) * c - NH / 2
      = -(sH / 2) := by
  subst hCY
  linear_combination ((NH - sH) / 2) * h

/-- C3: for every handle direction, rotation basis of unit length, zoom and
pointer displacement, a resize from a zone of legal size yields width and
height at least MIN_SIZE_PX; and the edge opposite each active handle is
pinned: its body-frame coordinate relative to the drag-start center (the
center shift projected on u, plus or minus half the new width, and on v for
the vertical edges) equals the coordinate it had at drag start, also when
the dimension is clamped at MIN_SIZE_PX, because the center shift is
computed from the clamped delta newWidth minus startWidth. -/
theorem resize_min_size_and_pinned_edge (direction : Dir)
    (startW startH startXPos startYPos rotC rotS zoom startX startY clientX clientY : ℚ)
    (r : ResizeResult)
    (hr : r = handleResizeMove direction startW startH startXPos startYPos rotC rotS
      zoom startX startY clientX clientY)
    (hUnit : rotC * rotC + rotS * rotS = 1)
    (hW : MIN_SIZE_PX ≤ startW) (hH : MIN_SIZE_PX ≤ startH) :
    MIN_SIZE_PX ≤ r.width
    ∧ MIN_SIZE_PX ≤ r.height
    ∧ (direction.hasW = true →
        (r.x - startXPos) * rotC + (r.y - startYPos) * rotS + r.width / 2 = startW / 2)
    ∧ (direction.hasE = true →
        (r.x - startXPos) * rotC + (r.y - startYPos) * rotS - r.width / 2 = -(startW / 2))
    ∧ (direction.hasN = true →
        (r.x - startXPos) * -rotS + (r.y - startYPos) * rotC + r.height / 2 = startH / 2)
    ∧ (direction.hasS = true →
        (r.x - startXPos) * -rotS + (r.y - startYPos) * rotC - r.height / 2 = -(startH / 2)) := by
  subst hr
  cases direction with
  | w =>
    simp only [handleResizeMove, Dir.hasE, Dir.hasW, Dir.hasS, Dir.hasN,
      Bool.false_eq_true, if_false, if_true, false_implies, true_implies,
      true_and, and_true]
    exact ⟨le_sup_left, hH,
      pinned_east_edge rotC rotS startXPos startYPos _ _ _ startW hUnit rfl⟩
  | e =>
    simp only [handleResizeMove, Dir.hasE, Dir.hasW, Dir.hasS, Dir.hasN,
      Bool.false_eq_true, if_false, if_true, false_implies, true_implies,
      true_and, and_true]
    exact ⟨le_sup_left, hH,
      pinned_west_edge rotC rotS startXPos startYPos _ _ _ startW hUnit rfl⟩
  | n =>
    simp only [handleResizeMove, Dir.hasE, Dir.hasW, Dir.hasS, Dir.hasN,
      Bool.false_eq_true, if_false, if_true, false_implies, true_implies,
      true_and, and_true]
    exact ⟨hW, le_sup_left,
      pinned_south_edge rotC rotS startXPos startYPos _ _ _ startH hUnit rfl⟩
  | s =>
    simp only [handleResizeMove, Dir.hasE, Dir.hasW, Dir.hasS, Dir.hasN,
      Bool.false_eq_true, if_false, if_true, false_implies, true_implies,
      true_and, and_true]
    exact ⟨hW, le_sup_left,
      pinned_north_edge rotC rotS startXPos startYPos _ _ _ startH hUnit rfl⟩
  | ne =>
    simp only [handleResizeMove, Dir.hasE, Dir.hasW, Dir.hasS, Dir.hasN,
      Bool.false_eq_true, if_false, if_true, false_implies, true_implies,
      true_and, and_true]
    exact ⟨le_sup_left, le_sup_left,
      pinned_west_edge rotC rotS startXPos startYPos _ _ _ startW hUnit rfl,
      pinned_south_edge rotC rotS startXPos startYPos _ _ _ startH hUnit rfl⟩
  | nw =>
    simp only [handleResizeMove, Dir.hasE, Dir.hasW, Dir.hasS, Dir.hasN,
      Bool.false_eq_true, if_false, if_true, false_implies, true_implies,
      true_and, and_true]
    exact ⟨le_sup_left, le_sup_left,
      pinned_east_edge rotC rotS startXPos startYPos _ _ _ startW hUnit rfl,
      pinned_south_edge rotC rotS startXPos startYPos _ _ _ startH hUnit rfl⟩
  | se =>
    simp only [handleResizeMove, Dir.hasE, Dir.hasW, Dir.hasS, Dir.hasN,
      Bool.false_eq_true, if_false, if_true, false_implies, true_implies,
      true_and, and_true]
    exact ⟨le_sup_left, le_sup_left,
      pinned_west_edge rotC rotS startXPos startYPos _ _ _ startW hUnit rfl,
      pinned_north_edge rotC rotS startXPos startYPos _ _ _ startH hUnit rfl⟩
  | sw =>
    simp only [handleResizeMove, Dir.hasE, Dir.hasW, Dir.hasS, Dir.hasN,
      Bool.false_eq_true, if_false, if_true, false_implies, true_implies,
      true_and, and_true]
    exact ⟨le_sup_left, le_sup_left,
      pinned_east_edge rotC rotS startXPos startYPos _ _ _ startW hUnit rfl,
      pinned_north_edge rotC rotS startXPos startYPos _ _ _ startH hUnit rfl⟩

/-- C3 witness: the theorem on the w handle at rotation 0, zoom 1, with a
drag large enough to clamp: the width lands on MIN_SIZE_PX exactly and the
result record is computed concretely. -/
theorem resize_min_size_witness :
    ((1 : ℚ) * 1 + 0 * 0 = 1)
    ∧ MIN_SIZE_PX ≤ (100 : ℚ)
    ∧ MIN_SIZE_PX ≤ (80 : ℚ)
    ∧ MIN_SIZE_PX ≤ (handleResizeMove Dir.w 100 80 0 0 1 0 1 0 0 200 0).width
    ∧ handleResizeMove Dir.w 100 80 0 0 1 0 1 0 0 200 0 = ⟨30, 80, 35, 0⟩ :=
  ⟨by norm_num, by norm_num [MIN_SIZE_PX], by norm_num [MIN_SIZE_PX],
   (resize_min_size_and_pinned_edge Dir.w 100 80 0 0 1 0 1 0 0 200 0
      (handleResizeMove Dir.w 100 80 0 0 1 0 1 0 0 200 0) rfl
      (by norm_num) (by norm_num [MIN_SIZE_PX]) (by norm_num [MIN_SIZE_PX])).1,
   by
    simp only [handleResizeMove, Dir.hasE, Dir.hasW, Dir.hasS, Dir.hasN,
      Bool.false_eq_true, if_false, if_true]
    norm_num [MIN_SIZE_PX, max_def, ResizeResult.mk.injEq]⟩

/-- C4: with a unit rotation basis and no clamping, dragging the e handle
outward by d along the width axis u (pointer displacement d times u, zoom 1)
grows the width by exactly d, keeps the height, moves the center by d over 2
along u, moves the right edge (center plus half width along u) by exactly d
in world space, and leaves the left edge (center minus half width along u)
at its drag-start world position; rotation 0 gives u = (1, 0) and rotation
90 gives u = (0, 1), the axes swapped. -/
theorem resize_e_moves_right_edge (startW startH startXPos startYPos rotC rotS d : ℚ)
    (r : ResizeResult)
    (hr : r = handleResizeMove Dir.e startW startH startXPos startYPos rotC rotS 1 0 0
      (d * rotC) (d * rotS))
    (hUnit : rotC * rotC + rotS * rotS = 1)
    (hNoClamp : MIN_SIZE_PX ≤ startW + d) :
    r.width = startW + d
    ∧ r.height = startH
    ∧ r.x = startXPos + d / 2 * rotC
    ∧ r.y = startYPos + d / 2 * rotS
    ∧ r.x + r.width / 2 * rotC = startXPos + startW / 2 * rotC + d * rotC
    ∧ r.y + r.width / 2 * rotS = startYPos + startW / 2 * rotS + d * rotS
    ∧ r.x - r.width / 2 * rotC = startXPos - startW / 2 * rotC
    ∧ r.y - r.width / 2 * rotS = startYPos - startW / 2 * rotS := by
  subst hr
  simp only [handleResizeMove, Dir.hasE, Dir.hasW, Dir.hasS, Dir.hasN,
    Bool.false_eq_true, if_false, if_true]
  have hD : (d * rotC - 0) / 1 * rotC + (d * rotS - 0) / 1 * rotS = d := by
    field_simp
    linear_combination d * hUnit
  rw [hD, max_eq_right hNoClamp]
  refine ⟨?_, ?_, ?_, ?_, ?_, ?_, ?_, ?_⟩ <;> first | rfl | trivial | ring

/-- C4 witness: the theorem at rotation 90 (u is the world y axis), an
outward drag of 5: width grows by 5 and the center moves 5 over 2 in y. -/
theorem resize_e_witness :
    ((0 : ℚ) * 0 + 1 * 1 = 1)
    ∧ MIN_SIZE_PX ≤ (100 : ℚ) + 5
    ∧ (handleResizeMove Dir.e 100 80 2 3 0 1 1 0 0 (5 * 0) (5 * 1)).width = 100 + 5
    ∧ handleResizeMove Dir.e 100 80 2 3 0 1 1 0 0 (5 * 0) (5 * 1) = ⟨105, 80, 2, 11 / 2⟩ :=
  ⟨by norm_num, by norm_num [MIN_SIZE_PX],
   (resize_e_moves_right_edge 100 80 2 3 0 1 5
      (handleResizeMove Dir.e 100 80 2 3 0 1 1 0 0 (5 * 0) (5 * 1)) rfl
      (by norm_num) (by norm_num [MIN_SIZE_PX])).1,
   by
    simp only [handleResizeMove, Dir.hasE, Dir.hasW, Dir.hasS, Dir.hasN,
      Bool.false_eq_true, if_false, if_true]
    norm_num [MIN_SIZE_PX, max_def, ResizeResult.mk.injEq]⟩

/-- C5: a move gesture sets the new center to the start center plus the
screen displacement divided by the zoom factor; the result is the same for
any element with the same center (the rotation and every other field are
not consulted), and the world displacement at zoom 2 is half the one the
same screen drag produces at zoom 1, in both coordinates. -/
theorem move_is_scaled_translation (el el2 : Element)
    (zoom startX startY clientX clientY : ℚ) (hz : 0 < zoom) :
    dragNewPosition el zoom startX startY clientX clientY
      = (el.x + (clientX - startX) / zoom, el.y + (clientY - startY) / zoom)
    ∧ (el2.x = el.x → el2.y = el.y →
        dragNewPosition el2 zoom startX startY clientX clientY
          = dragNewPosition el zoom startX startY clientX clientY)
    ∧ (dragNewPosition el 2 startX startY clientX clientY).1 - el.x
        = ((dragNewPosition el 1 startX startY clientX clientY).1 - el.x) / 2
    ∧ (dragNewPosition el 2 startX startY clientX clientY).2 - el.y
        = ((dragNewPosition el 1 startX startY clientX clientY).2 - el.y) / 2 := by
  refine ⟨rfl, fun hx hy => ?_, ?_, ?_⟩
  · simp only [dragNewPosition, hx, hy]
  · simp only [dragNewPosition]
    ring
  · simp only [dragNewPosition]
    ring

/-- C5 witness: the theorem on a concrete court at zoom 1 with a concrete
drag; the second element taken equal to the first. -/
theorem move_translation_witness :
    (0 : ℚ) < 1
    ∧ dragNewPosition ⟨1, ElemType.court, 3, 4, 90, none, none, none, none⟩ 1 0 0 7 9
        = ((3 : ℚ) + (7 - 0) / 1, (4 : ℚ) + (9 - 0) / 1) :=
  ⟨by norm_num,
   (move_is_scaled_translation ⟨1, ElemType.court, 3, 4, 90, none, none, none, none⟩
      ⟨1, ElemType.court, 3, 4, 90, none, none, none, none⟩ 1 0 0 7 9 (by norm_num)).1⟩

/-- C10 witness: the amended theorem at the empty store and a concrete
interval; the blank deposit is stored as zero. -/
theorem deposit_default_witness :
    (∀ r ∈ ([] : List Reservation), r.courtId = 1 →
      overlapB 0 (0 + 60 * 60000) r.start r.endTime = false)
    ∧ ((createReservation [] 1 true true (some 0) 60 "Ana" none 100).2
        = [] ++ [⟨100, 1, "Ana", 0, 0 + 60 * 60000, 0⟩]
      ∧ ∀ d : ℚ, (createReservation [] 1 true true (some 0) 60 "Ana" (some d) 100).2
        = [] ++ [⟨100, 1, "Ana", 0, 0 + 60 * 60000, d⟩]) :=
  ⟨by simp, deposit_default_and_passthrough [] 1 0 60 "Ana" 100 (by simp)⟩

end ClubPadel
